import Mathlib

/-!
Shallow embedding of the p4-homeworks controllers:
`exercises/homework1/mycontroller-triangle.py` (ECN monitoring controller)
and `exercises/homework4/mycontroller.py` (ACL controller), together with
proofs of the specification's testable properties.

Bytes are modelled as natural numbers, Python byte strings as `List Nat`,
Python ints as `Int`, and the device-visible protocol operations as an
explicit event trace.
-/

namespace P4Hw

/-- A Python scalar as it appears in the controllers' rule dictionaries:
a string (IP addresses, MAC addresses) or an integer (ports, masks,
prefix lengths). -/
inductive PyVal where
  | str : String → PyVal
  | int : Int → PyVal
deriving DecidableEq, Repr

/-- Modelled from the spec: the ProtocolRuleEntry produced by the external
helper `p4runtime_lib.helper.P4InfoHelper.buildTableEntry`, which is not a
file of this repository.  The spec describes it as "(table name, match-field
map, action name, action parameters, optional priority, optional
default-action flag)". -/
structure TableEntry where
  table_name : String
  match_fields : List (String × List PyVal)
  action_name : String
  action_params : List (String × PyVal)
  priority : Option Int
  default_action : Bool
deriving DecidableEq, Repr

/-- Modelled from the spec: `buildTableEntry` packages the controller's
arguments verbatim into a ProtocolRuleEntry (the helper is treated as the
black-box encoding step of the external framework). -/
def buildTableEntry (table_name : String) (match_fields : List (String × List PyVal))
    (action_name : String) (action_params : List (String × PyVal))
    (priority : Option Int) (default_action : Bool) : TableEntry :=
  ⟨table_name, match_fields, action_name, action_params, priority, default_action⟩

/-! ## PacketParser (homework1) -/

/-- `struct.calcsize("!6s6sH")`: two 6-byte MAC fields and one 2-byte
ethertype field. -/
def eth_header_length : Nat := 6 + 6 + 2

/-- `PacketParser.cpu_header_offset`: the CPU header starts right after the
Ethernet header. -/
def cpu_header_offset : Nat := eth_header_length

/-- The Python slice `packet_data[off : off + 1]` on a byte string: at most
one byte, never an error. -/
def sliceOne (packet_data : List Nat) (off : Nat) : List Nat :=
  (packet_data.drop off).take 1

/-- `struct.unpack("!B", b)`: succeeds exactly on a one-byte buffer and
returns that byte; anything else raises `struct.error` (modelled as none). -/
def unpackB : List Nat → Option Nat
  | [b] => some b
  | _ => none

/-- `PacketParser.extract_ecn_value` together with its log output: the
`struct.error` raised on a short slice is caught, the anomaly is printed and
the sentinel 0 is returned. -/
def extract_ecn_value_logged (packet_data : List Nat) : Nat × List String :=
  match unpackB (sliceOne packet_data cpu_header_offset) with
  | some v => (v, [])
  | none => (0, ["Error parsing packet"])

/-- `PacketParser.extract_ecn_value`: the decoded ECN marker, 0 on malformed
input. -/
def extract_ecn_value (packet_data : List Nat) : Nat :=
  (extract_ecn_value_logged packet_data).1

/-! ## Monitoring loop (homework1) -/

/-- A congestion alert, in the context of the device whose response stream
produced it. -/
structure Alert where
  device : String
  marker : Nat
deriving DecidableEq, Repr

/-- `SwitchManager._handle_packet_response` applied to a decoded marker:
an alert is raised exactly when the marker equals 3. -/
def handle_decoded_marker (device : String) (marker : Nat) : List Alert :=
  if marker = 3 then [⟨device, marker⟩] else []

/-- The monitoring loop over one device's decoded marker stream, in arrival
order. -/
def monitor_markers (device : String) : List Nat → List Alert
  | [] => []
  | m :: rest => handle_decoded_marker device m ++ monitor_markers device rest

/-- `SwitchManager._process_switch_responses`: each device's packet payloads
are decoded with `extract_ecn_value` and fed to the congestion check, device
by device in iteration order. -/
def processStreams : List (String × List (List Nat)) → List Alert
  | [] => []
  | s :: rest => monitor_markers s.1 (s.2.map extract_ecn_value) ++ processStreams rest

/-! ## Device-visible protocol operations -/

/-- One controller-to-device protocol operation, in the order the driver
issues them. -/
inductive Event where
  | connect : String → Event
  | masterArbitrationUpdate : String → Event
  | setForwardingPipelineConfig : String → Event
  | writeTableEntry : String → TableEntry → Event
  | writePREEntry : String → Int → List (Int × Int) → Event
deriving DecidableEq, Repr

/-- The kind of a protocol operation together with its target device,
forgetting rule payloads. -/
inductive EvKind where
  | connect : String → EvKind
  | master : String → EvKind
  | pipeline : String → EvKind
  | install : String → EvKind
deriving DecidableEq, Repr

/-- The kind of an event: both table-entry writes and clone-session writes
count as rule installation. -/
def Event.kind : Event → EvKind
  | .connect d => .connect d
  | .masterArbitrationUpdate d => .master d
  | .setForwardingPipelineConfig d => .pipeline d
  | .writeTableEntry d _ => .install d
  | .writePREEntry d _ _ => .install d

/-- Whether a kind is a rule-installation submission. -/
def isInstall : EvKind → Bool
  | .install _ => true
  | _ => false

/-! ## homework1 fleet configuration and rule writers -/

/-- `SwitchConfig.SWITCHES`: (name, address, device_id). -/
def SWITCHES : List (String × String × Nat) :=
  [("s1", "127.0.0.1:50051", 0),
   ("s2", "127.0.0.1:50052", 1),
   ("s3", "127.0.0.1:50053", 2)]

/-- `TableRuleWriter.write_ipv4_lpm_rules`: builds the LPM entry and submits
it to the given switch. -/
def write_ipv4_lpm_rules (switch : String) (match_fields : List PyVal)
    (action_params : List (String × PyVal)) : Event :=
  .writeTableEntry switch
    (buildTableEntry "MyIngress.ipv4_lpm" [("hdr.ipv4.dstAddr", match_fields)]
      "MyIngress.ipv4_forward" action_params none false)

/-- `TableRuleWriter.write_ecn_check_rules`: installs `MyEgress.mark_ecn`
with the prompted threshold as the default action of the check table. -/
def write_ecn_check_rules (switch : String) (ecn_threshold : Int) : Event :=
  .writeTableEntry switch
    (buildTableEntry "MyEgress.check_ecn" [] "MyEgress.mark_ecn"
      [("ecn_threshold", PyVal.int ecn_threshold)] none true)

/-- `TableRuleWriter.write_clone_rules`: submits a clone-session entry. -/
def write_clone_rules (switch : String) (clone_session_id : Int)
    (replicas : List (Int × Int)) : Event :=
  .writePREEntry switch clone_session_id replicas

/-- `SwitchManager.initialize_switches`: first create every switch
connection, then for every switch (in insertion order) claim mastership and
push the forwarding pipeline. -/
def initialize_switches_trace : List Event :=
  SWITCHES.map (fun c => Event.connect c.1) ++
    SWITCHES.flatMap (fun c =>
      [Event.masterArbitrationUpdate c.1, Event.setForwardingPipelineConfig c.1])

/-- The `s1_rules` literal of `SwitchManager._configure_ipv4_rules`. -/
def s1_rules : List (List PyVal × List (String × PyVal)) :=
  [([PyVal.str "10.0.1.1", PyVal.int 32],
    [("dstAddr", PyVal.str "08:00:00:00:01:01"), ("port", PyVal.int 2)]),
   ([PyVal.str "10.0.1.11", PyVal.int 32],
    [("dstAddr", PyVal.str "08:00:00:00:01:11"), ("port", PyVal.int 1)]),
   ([PyVal.str "10.0.2.0", PyVal.int 24],
    [("dstAddr", PyVal.str "08:00:00:00:02:00"), ("port", PyVal.int 3)]),
   ([PyVal.str "10.0.3.0", PyVal.int 24],
    [("dstAddr", PyVal.str "08:00:00:00:03:00"), ("port", PyVal.int 4)])]

/-- The `s2_rules` literal of `SwitchManager._configure_ipv4_rules`. -/
def s2_rules : List (List PyVal × List (String × PyVal)) :=
  [([PyVal.str "10.0.2.2", PyVal.int 32],
    [("dstAddr", PyVal.str "08:00:00:00:02:02"), ("port", PyVal.int 2)]),
   ([PyVal.str "10.0.2.22", PyVal.int 32],
    [("dstAddr", PyVal.str "08:00:00:00:02:22"), ("port", PyVal.int 1)]),
   ([PyVal.str "10.0.1.0", PyVal.int 24],
    [("dstAddr", PyVal.str "08:00:00:00:01:00"), ("port", PyVal.int 3)]),
   ([PyVal.str "10.0.3.0", PyVal.int 24],
    [("dstAddr", PyVal.str "08:00:00:00:03:00"), ("port", PyVal.int 4)])]

/-- The `s3_rules` literal of `SwitchManager._configure_ipv4_rules`. -/
def s3_rules : List (List PyVal × List (String × PyVal)) :=
  [([PyVal.str "10.0.3.3", PyVal.int 32],
    [("dstAddr", PyVal.str "08:00:00:00:03:03"), ("port", PyVal.int 1)]),
   ([PyVal.str "10.0.1.0", PyVal.int 24],
    [("dstAddr", PyVal.str "08:00:00:00:01:00"), ("port", PyVal.int 2)]),
   ([PyVal.str "10.0.2.0", PyVal.int 24],
    [("dstAddr", PyVal.str "08:00:00:00:02:00"), ("port", PyVal.int 3)])]

/-- `SwitchManager._configure_ipv4_rules`: the per-switch literal rule lists
applied in order to s1, s2 and s3. -/
def configure_ipv4_rules_trace : List Event :=
  s1_rules.map (fun r => write_ipv4_lpm_rules "s1" r.1 r.2) ++
    s2_rules.map (fun r => write_ipv4_lpm_rules "s2" r.1 r.2) ++
    s3_rules.map (fun r => write_ipv4_lpm_rules "s3" r.1 r.2)

/-- `SwitchManager._configure_ecn_rules`: one default-action entry per
switch carrying the prompted threshold. -/
def configure_ecn_rules_trace (ecn_threshold : Int) : List Event :=
  SWITCHES.map (fun c => write_ecn_check_rules c.1 ecn_threshold)

/-- `SwitchManager._configure_clone_sessions`: session 100 with one replica
(port 252, instance 1) on every switch. -/
def configure_clone_sessions_trace : List Event :=
  SWITCHES.map (fun c => write_clone_rules c.1 100 [(252, 1)])

/-- `SwitchManager.configure_routing_tables`: IPv4 rules, then ECN rules,
then clone sessions. -/
def configure_routing_tables_trace (ecn_threshold : Int) : List Event :=
  configure_ipv4_rules_trace ++ configure_ecn_rules_trace ecn_threshold ++
    configure_clone_sessions_trace

/-- The device-visible trace of homework1's `main`: initialize every switch,
then configure routing, ECN and clone rules. -/
def mainTrace (ecn_threshold : Int) : List Event :=
  initialize_switches_trace ++ configure_routing_tables_trace ecn_threshold

/-- The kinds of the operations of `mainTrace`, in order. -/
def kindTrace (ecn_threshold : Int) : List EvKind :=
  (mainTrace ecn_threshold).map Event.kind

/-! ## homework4 ACL controller -/

/-- The table entry built by `ACLController.write_ipv4_lpm_rule`: the LPM
match pair (destination address, prefix length) and the forwarding action
with next-hop MAC and egress port. -/
def ipv4_lpm_entry (dst_addr : String) (prefix_len : Int) (dst_mac : String)
    (port : Int) : TableEntry :=
  buildTableEntry "MyIngress.ipv4_lpm"
    [("hdr.ipv4.dstAddr", [PyVal.str dst_addr, PyVal.int prefix_len])]
    "MyIngress.ipv4_forward"
    [("dstAddr", PyVal.str dst_mac), ("port", PyVal.int port)] none false

/-- `ACLController.write_ipv4_lpm_rule`: builds the entry from its arguments
and submits a table-entry write on the named switch.  The method body has no
validation and no failure path, which the `Except` result records. -/
def write_ipv4_lpm_rule (switch_name dst_addr : String) (prefix_len : Int)
    (dst_mac : String) (port : Int) : Except String (List Event) :=
  Except.ok [Event.writeTableEntry switch_name
    (ipv4_lpm_entry dst_addr prefix_len dst_mac port)]

/-- The table entry built by `ACLController.write_acl_ip_rule`: ternary
match on the destination address with explicit mask, drop action, explicit
priority. -/
def acl_ip_entry (dst_addr : String) (mask : Int) (priority : Int) : TableEntry :=
  buildTableEntry "MyIngress.acl_ip_t"
    [("hdr.ipv4.dstAddr", [PyVal.str dst_addr, PyVal.int mask])]
    "MyIngress.drop" [] (some priority) false

/-- The table entry built by `ACLController.write_acl_udp_rule`: ternary
match on the UDP destination port with explicit mask, drop action, explicit
priority. -/
def acl_udp_entry (dst_port mask priority : Int) : TableEntry :=
  buildTableEntry "MyIngress.acl_udp_t"
    [("hdr.udp.dstPort", [PyVal.int dst_port, PyVal.int mask])]
    "MyIngress.drop" [] (some priority) false

/-- The `host_configs` literal of `configure_acl_rules`: (ip, mac, port). -/
def host_configs : List (String × String × Int) :=
  [("10.0.1.1", "08:00:00:00:01:01", 1),
   ("10.0.1.2", "08:00:00:00:01:02", 2),
   ("10.0.1.3", "08:00:00:00:01:03", 3),
   ("10.0.1.4", "08:00:00:00:01:04", 4)]

/-- `configure_acl_rules`: the /32 forwarding rules for every host, then the
ACL drop rule to 10.0.1.4 and the ACL drop rule for UDP port 80. -/
def configure_acl_rules_trace : List Event :=
  host_configs.map (fun c => Event.writeTableEntry "s1" (ipv4_lpm_entry c.1 32 c.2.1 c.2.2)) ++
    [Event.writeTableEntry "s1" (acl_ip_entry "10.0.1.4" 4294967295 1),
     Event.writeTableEntry "s1" (acl_udp_entry 80 65535 1)]

/-- The device-visible trace of homework4's `main`: add switch s1, claim
mastership, push the pipeline, then configure the ACL rules. -/
def hw4_trace : List Event :=
  [Event.connect "s1", Event.masterArbitrationUpdate "s1",
   Event.setForwardingPipelineConfig "s1"] ++ configure_acl_rules_trace

/-! ## Drivers and file validation -/

/-- `validate_file_paths` (the same logic in both controllers): raise
`FileNotFoundError` on the first missing path.  `present` abstracts
`os.path.exists`. -/
def validate_file_paths (present : String → Bool) (p4info_path bmv2_json_path : String) :
    Except String Unit :=
  if present p4info_path = false then Except.error "p4info file not found"
  else if present bmv2_json_path = false then Except.error "BMv2 JSON file not found"
  else Except.ok ()

/-- homework1's driver: `main` validates the file paths before creating any
switch connection, and the top-level handler turns `FileNotFoundError` into
exit status 1.  Result: (exit status, device-visible events). -/
def hw1_driver (present : String → Bool) (p4info_path bmv2_json_path : String)
    (ecn_threshold : Int) : Nat × List Event :=
  match validate_file_paths present p4info_path bmv2_json_path with
  | Except.error _ => (1, [])
  | Except.ok _ => (0, mainTrace ecn_threshold)

/-- homework4's driver: `validate_file_paths` runs before `main`, and a
`FileNotFoundError` becomes exit status 1 with no device activity. -/
def hw4_driver (present : String → Bool) (p4info_path bmv2_json_path : String) :
    Nat × List Event :=
  match validate_file_paths present p4info_path bmv2_json_path with
  | Except.error _ => (1, [])
  | Except.ok _ => (0, hw4_trace)

/-- One full homework1 run's observables: the configuration trace driven by
the prompted threshold, and the alert stream produced from the device event
payloads. -/
def controllerRun (ecn_threshold : Int) (streams : List (String × List (List Nat))) :
    List Event × List Alert :=
  (mainTrace ecn_threshold, processStreams streams)

/-! ## Threshold prompt (homework1) -/

/-- The numeric value of a list of decimal digit characters. -/
def digitsVal (l : List Char) : Nat :=
  l.foldl (fun a c => 10 * a + (c.toNat - 48)) 0

/-- Python's `str.strip()` on a character list: drop leading and trailing
whitespace. -/
def stripChars (l : List Char) : List Char :=
  ((l.dropWhile Char.isWhitespace).reverse.dropWhile Char.isWhitespace).reverse

/-- Python's `int()` applied to the prompt line: surrounding whitespace is
ignored, then an optional sign is followed by one or more decimal digits
(digit-grouping underscores are not modelled); none models `ValueError`. -/
def pyParseInt (s : String) : Option Int :=
  match stripChars s.toList with
  | [] => none
  | c :: rest =>
    if c = '-' then
      if !rest.isEmpty && rest.all Char.isDigit then
        some (-(digitsVal rest : Int))
      else none
    else if c = '+' then
      if !rest.isEmpty && rest.all Char.isDigit then
        some (digitsVal rest)
      else none
    else if (c :: rest).all Char.isDigit then
      some (digitsVal (c :: rest))
    else none

/-- `get_ecn_threshold`: `int(input(...))` with `ValueError` caught and the
default 10 returned. -/
def get_ecn_threshold (prompt_line : String) : Int :=
  match pyParseInt prompt_line with
  | some n => n
  | none => 10

end P4Hw

namespace P4Hw

theorem kindTrace_closed (t : Int) :
    kindTrace t =
      [.connect "s1", .connect "s2", .connect "s3",
       .master "s1", .pipeline "s1", .master "s2", .pipeline "s2",
       .master "s3", .pipeline "s3",
       .install "s1", .install "s1", .install "s1", .install "s1",
       .install "s2", .install "s2", .install "s2", .install "s2",
       .install "s3", .install "s3", .install "s3",
       .install "s1", .install "s2", .install "s3",
       .install "s1", .install "s2", .install "s3"] := rfl

end P4Hw

namespace P4Hw

/-! ## Properties of the payload decoder -/

theorem sliceOne_of_long (p : List Nat) (off : Nat) (h : off + 1 ≤ p.length) :
    sliceOne p off = [p.getD off 0] := by
  have hlt : off < p.length := by omega
  have hd : p.drop off = p[off] :: p.drop (off + 1) := List.drop_eq_getElem_cons hlt
  have hg : p.getD off 0 = p[off] := by
    simp [List.getD, List.getElem?_eq_getElem hlt]
  unfold sliceOne
  rw [hd, hg]
  rfl

/-- C1: for every payload of length at least `cpu_header_offset + 1` (the
14-byte Ethernet header plus the marker byte), `extract_ecn_value` returns
exactly the byte at the marker offset, and the result depends on no other
byte of the payload. -/
theorem extract_ecn_value_reads_marker_byte (p : List Nat)
    (h : cpu_header_offset + 1 ≤ p.length) :
    extract_ecn_value p = p.getD cpu_header_offset 0 ∧
    ∀ q : List Nat, cpu_header_offset + 1 ≤ q.length →
      q.getD cpu_header_offset 0 = p.getD cpu_header_offset 0 →
      extract_ecn_value q = extract_ecn_value p := by
  have main : ∀ r : List Nat, cpu_header_offset + 1 ≤ r.length →
      extract_ecn_value r = r.getD cpu_header_offset 0 := by
    intro r hr
    unfold extract_ecn_value extract_ecn_value_logged
    rw [sliceOne_of_long r cpu_header_offset hr]
    rfl
  refine ⟨main p h, fun q hq hsame => ?_⟩
  rw [main p h, main q hq, hsame]

/-- Witness for C1 on a concrete 15-byte payload whose marker byte is 3. -/
theorem extract_ecn_value_reads_marker_byte_witness :
    extract_ecn_value [9, 9, 9, 9, 9, 9, 8, 8, 8, 8, 8, 8, 0, 0, 3] =
      ([9, 9, 9, 9, 9, 9, 8, 8, 8, 8, 8, 8, 0, 0, 3] : List Nat).getD cpu_header_offset 0 :=
  (extract_ecn_value_reads_marker_byte [9, 9, 9, 9, 9, 9, 8, 8, 8, 8, 8, 8, 0, 0, 3]
    (by decide)).1

/-- C2: a payload shorter than `cpu_header_offset + 1` bytes yields the
sentinel 0, and the condition is surfaced as a logged anomaly rather than an
uncaught error (the embedding is a total function whose log records the
caught `struct.error`). -/
theorem extract_ecn_value_short_payload (p : List Nat)
    (h : p.length < cpu_header_offset + 1) :
    extract_ecn_value p = 0 ∧
    extract_ecn_value_logged p = (0, ["Error parsing packet"]) := by
  have hdrop : p.drop cpu_header_offset = [] := List.drop_eq_nil_of_le (by omega)
  have hslice : sliceOne p cpu_header_offset = [] := by
    unfold sliceOne
    rw [hdrop]
    rfl
  constructor
  · unfold extract_ecn_value extract_ecn_value_logged
    rw [hslice]
    rfl
  · unfold extract_ecn_value_logged
    rw [hslice]
    rfl

/-- Witness for C2 on a concrete 3-byte payload. -/
theorem extract_ecn_value_short_payload_witness :
    extract_ecn_value [1, 2, 3] = 0 ∧
    extract_ecn_value_logged [1, 2, 3] = (0, ["Error parsing packet"]) :=
  extract_ecn_value_short_payload [1, 2, 3] (by decide)

/-! ## Properties of the monitoring loop -/

/-- C3: the decoded marker stream `[0, 1, 2, 3, 0, 3]` from device `s1`
yields exactly the two alerts `(s1, 3)`, in that order, and every marker of
the stream other than 3 yields no alert. -/
theorem monitor_markers_concrete_stream :
    monitor_markers "s1" [0, 1, 2, 3, 0, 3] =
      ([⟨"s1", 3⟩, ⟨"s1", 3⟩] : List Alert) ∧
    ∀ m ∈ ([0, 1, 2, 3, 0, 3] : List Nat), m ≠ 3 →
      handle_decoded_marker "s1" m = [] := by
  constructor
  · rfl
  · decide

/-! ## Bring-up ordering -/

/-- C4: in homework1's device-visible trace, every configured device is
connected, then granted mastership, then given the pipeline — and every
device's pipeline push precedes every rule-installation submission to any
device, for every prompted threshold. -/
theorem bringup_barrier_order (t : Int) :
    (∀ d ∈ ["s1", "s2", "s3"],
      (kindTrace t).indexOf (.connect d) < (kindTrace t).indexOf (.master d) ∧
      (kindTrace t).indexOf (.master d) < (kindTrace t).indexOf (.pipeline d) ∧
      (kindTrace t).indexOf (.pipeline d) < (kindTrace t).length) ∧
    (∀ d ∈ ["s1", "s2", "s3"], ∀ n, n < (kindTrace t).length →
      isInstall ((kindTrace t).getD n (.connect "")) = true →
      (kindTrace t).indexOf (.pipeline d) < n) := by
  rw [kindTrace_closed t]
  constructor
  · decide
  · decide

/-! ## Rule building -/

/-- C5: for a route intent with prefix length in [0, 32], the produced entry
matches exactly the pair (destination address, prefix length) under the LPM
key, its action parameters are the intent's next-hop MAC and egress port
unchanged, and homework1's `TableRuleWriter` submits the identical entry. -/
theorem ipv4_lpm_entry_encodes_intent (dst_addr : String) (prefix_len : Int)
    (dst_mac : String) (port : Int) (h0 : 0 ≤ prefix_len) (h32 : prefix_len ≤ 32) :
    (ipv4_lpm_entry dst_addr prefix_len dst_mac port).match_fields =
      [("hdr.ipv4.dstAddr", [PyVal.str dst_addr, PyVal.int prefix_len])] ∧
    (ipv4_lpm_entry dst_addr prefix_len dst_mac port).action_params =
      [("dstAddr", PyVal.str dst_mac), ("port", PyVal.int port)] ∧
    write_ipv4_lpm_rules "s1" [PyVal.str dst_addr, PyVal.int prefix_len]
        [("dstAddr", PyVal.str dst_mac), ("port", PyVal.int port)] =
      Event.writeTableEntry "s1" (ipv4_lpm_entry dst_addr prefix_len dst_mac port) :=
  ⟨rfl, rfl, rfl⟩

/-- Witness for C5 at the concrete intent (10.0.1.1/32, 08:00:00:00:01:01,
port 1). -/
theorem ipv4_lpm_entry_encodes_intent_witness :
    (ipv4_lpm_entry "10.0.1.1" 32 "08:00:00:00:01:01" 1).match_fields =
      [("hdr.ipv4.dstAddr", [PyVal.str "10.0.1.1", PyVal.int 32])] ∧
    (ipv4_lpm_entry "10.0.1.1" 32 "08:00:00:00:01:01" 1).action_params =
      [("dstAddr", PyVal.str "08:00:00:00:01:01"), ("port", PyVal.int 1)] :=
  ⟨(ipv4_lpm_entry_encodes_intent "10.0.1.1" 32 "08:00:00:00:01:01" 1
      (by decide) (by decide)).1,
   (ipv4_lpm_entry_encodes_intent "10.0.1.1" 32 "08:00:00:00:01:01" 1
      (by decide) (by decide)).2.1⟩

/-- C6: both ACL rule builders always produce an entry whose priority field
is explicitly the intent's priority, never defaulted or omitted. -/
theorem acl_entries_carry_priority (dst_addr : String) (mask dst_port priority : Int) :
    (acl_ip_entry dst_addr mask priority).priority = some priority ∧
    (acl_udp_entry dst_port mask priority).priority = some priority :=
  ⟨rfl, rfl⟩

/-- C7 counterexample: at prefix length 33 (outside [0, 32]) the rule
builder does not fail — it submits a table-entry write carrying the
out-of-range prefix length, so no `InvalidIntentError` rejection happens
before the device call. -/
theorem lpm_no_validation_counterexample :
    write_ipv4_lpm_rule "s1" "10.0.1.1" 33 "08:00:00:00:01:01" 1 =
      Except.ok [Event.writeTableEntry "s1"
        (ipv4_lpm_entry "10.0.1.1" 33 "08:00:00:00:01:01" 1)] ∧
    (ipv4_lpm_entry "10.0.1.1" 33 "08:00:00:00:01:01" 1).match_fields =
      [("hdr.ipv4.dstAddr", [PyVal.str "10.0.1.1", PyVal.int 33])] :=
  ⟨rfl, rfl⟩

/-- C7 amended: for a route intent whose prefix length is outside [0, 32],
no validation error is raised; the entry is built with the out-of-range
prefix length unchanged and a table-entry write is submitted to the
device. -/
theorem lpm_out_of_range_submitted_unchanged (switch_name dst_addr dst_mac : String)
    (prefix_len port : Int) (h : prefix_len < 0 ∨ 32 < prefix_len) :
    write_ipv4_lpm_rule switch_name dst_addr prefix_len dst_mac port =
      Except.ok [Event.writeTableEntry switch_name
        (ipv4_lpm_entry dst_addr prefix_len dst_mac port)] ∧
    (ipv4_lpm_entry dst_addr prefix_len dst_mac port).match_fields =
      [("hdr.ipv4.dstAddr", [PyVal.str dst_addr, PyVal.int prefix_len])] :=
  ⟨rfl, rfl⟩

/-- Witness for the amended C7 at prefix length 33. -/
theorem lpm_out_of_range_submitted_unchanged_witness :
    write_ipv4_lpm_rule "s1" "10.0.1.4" 33 "08:00:00:00:01:04" 4 =
      Except.ok [Event.writeTableEntry "s1"
        (ipv4_lpm_entry "10.0.1.4" 33 "08:00:00:00:01:04" 4)] ∧
    (ipv4_lpm_entry "10.0.1.4" 33 "08:00:00:00:01:04" 4).match_fields =
      [("hdr.ipv4.dstAddr", [PyVal.str "10.0.1.4", PyVal.int 33])] :=
  lpm_out_of_range_submitted_unchanged "s1" "10.0.1.4" "08:00:00:00:01:04" 33 4
    (Or.inr (by decide))

/-! ## Threshold noninterference -/

theorem monitor_markers_filter (d : String) (ms : List Nat) :
    monitor_markers d ms = (ms.filter (fun m => m == 3)).map (Alert.mk d) := by
  induction ms with
  | nil => rfl
  | cons m rest ih =>
    by_cases h : m = 3
    · subst h
      simp [monitor_markers, handle_decoded_marker, ih, List.filter_cons]
    · have hb : (m == 3) = false := by
        simpa using h
      simp [monitor_markers, handle_decoded_marker, h, hb, ih, List.filter_cons]

theorem processStreams_characterization (streams : List (String × List (List Nat))) :
    processStreams streams =
      streams.flatMap (fun s =>
        ((s.2.map extract_ecn_value).filter (fun m => m == 3)).map (Alert.mk s.1)) := by
  induction streams with
  | nil => rfl
  | cons s rest ih =>
    simp [processStreams, monitor_markers_filter, ih]

/-- C8: the congestion-alert decision never reads the prompted threshold —
two runs over the same payload streams with different thresholds produce
identical alert streams, an alert is raised exactly for the decoded markers
equal to 3, and the threshold's only use is the `mark_ecn` action parameter
of the ECN check rule pushed to each device. -/
theorem alerts_independent_of_threshold (t1 t2 : Int)
    (streams : List (String × List (List Nat))) :
    (controllerRun t1 streams).2 = (controllerRun t2 streams).2 ∧
    (controllerRun t1 streams).2 =
      streams.flatMap (fun s =>
        ((s.2.map extract_ecn_value).filter (fun m => m == 3)).map (Alert.mk s.1)) ∧
    ∀ name : String, write_ecn_check_rules name t1 =
      Event.writeTableEntry name
        (buildTableEntry "MyEgress.check_ecn" [] "MyEgress.mark_ecn"
          [("ecn_threshold", PyVal.int t1)] none true) :=
  ⟨rfl, processStreams_characterization streams, fun _ => rfl⟩

/-! ## File validation before network activity -/

/-- C9: when the program artifact or the schema file is missing, both
drivers exit with status 1 and the device-visible event trace is empty — the
failure happens before any switch connection or device call. -/
theorem missing_files_fail_before_network (present : String → Bool)
    (p4info_path bmv2_json_path : String) (ecn_threshold : Int)
    (h : present p4info_path = false ∨ present bmv2_json_path = false) :
    hw1_driver present p4info_path bmv2_json_path ecn_threshold = (1, []) ∧
    hw4_driver present p4info_path bmv2_json_path = (1, []) := by
  rcases h with h | h
  · simp [hw1_driver, hw4_driver, validate_file_paths, h]
  · by_cases hp : present p4info_path = false
    · simp [hw1_driver, hw4_driver, validate_file_paths, hp]
    · simp [hw1_driver, hw4_driver, validate_file_paths, hp, h]

/-- Witness for C9: with no file present, both drivers exit 1 with no device
activity. -/
theorem missing_files_fail_before_network_witness :
    hw1_driver (fun _ => false) "./build/ecn.p4.p4info.txtpb" "./build/ecn.json" 10 =
      (1, []) ∧
    hw4_driver (fun _ => false) "./build/acl.p4.p4info.txtpb" "./build/acl.json" =
      (1, []) := by
  have h1 := missing_files_fail_before_network (fun _ => false)
    "./build/ecn.p4.p4info.txtpb" "./build/ecn.json" 10 (Or.inl rfl)
  have h2 := missing_files_fail_before_network (fun _ => false)
    "./build/acl.p4.p4info.txtpb" "./build/acl.json" 10 (Or.inl rfl)
  exact ⟨h1.1, h2.2⟩

/-! ## Threshold prompt -/

/-- C10: an unparseable prompt line yields the default threshold 10 with no
failure, a parseable line yields its integer value, and on concrete inputs:
"20" gives 20, "  -7 " gives -7, and "not a number" gives 10. -/
theorem get_ecn_threshold_total (s : String) :
    (pyParseInt s = none → get_ecn_threshold s = 10) ∧
    (∀ n : Int, pyParseInt s = some n → get_ecn_threshold s = n) ∧
    get_ecn_threshold "20" = 20 ∧
    get_ecn_threshold "  -7 " = -7 ∧
    get_ecn_threshold "not a number" = 10 := by
  refine ⟨fun h => ?_, fun n h => ?_, by decide, by decide, by decide⟩
  · simp [get_ecn_threshold, h]
  · simp [get_ecn_threshold, h]

end P4Hw
